import Mathlib

/-!
Verification development for the trainingcenter-backend core:
the VATEUD solo synchronisation client (`VateudCoreLibrary.ts`) and the
VATSIM Connect login library (`VatsimConnectLibrary`).

The TypeScript sources are embedded shallowly: HTTP calls, the database and
the job scheduler are external collaborators, so each network call is
represented by an explicit outcome value (resolved payload / rejection) and
the persistence layer by explicit record lists threaded through the
functions.  JavaScript string operations (`split(" ")`, `toLowerCase()`,
`includes(..)`) are re-implemented by structural recursion over character
lists so that every definition evaluates inside the kernel.
-/

/-- Splits a character list at every occurrence of the separator character,
mirroring the semantics of JavaScript `String.prototype.split` with a
single-character separator. -/
def splitOnChar (c : Char) : List Char → List (List Char)
  | [] => [[]]
  | x :: xs =>
      let r := splitOnChar c xs
      if x = c then [] :: r
      else
        match r with
        | [] => [[x]]
        | y :: ys => (x :: y) :: ys

/-- Embeds the TypeScript expression `s.split(" ")`. -/
def splitSpaces (s : String) : List String :=
  (splitOnChar ' ' s.data).map (fun cs => String.mk cs)

/-- Embeds the TypeScript expression `s.toLowerCase()` (character-wise). -/
def strToLower (s : String) : String := String.mk (s.data.map Char.toLower)

/-- Tests whether the first list is an initial segment of the second. -/
def beginsWith : List Char → List Char → Bool
  | [], _ => true
  | _ :: _, [] => false
  | a :: as, b :: bs => a == b && beginsWith as bs

/-- Tests whether `pat` occurs contiguously inside the second list. -/
def sublistSearch (pat : List Char) : List Char → Bool
  | [] => beginsWith pat []
  | c :: cs => beginsWith pat (c :: cs) || sublistSearch pat cs

/-- Embeds the TypeScript expression `s.includes(pat)`. -/
def strContains (s pat : String) : Bool := sublistSearch pat.data s.data

/-!
Part one: the VATEUD Core synchronisation client
(`src/libraries/vateud/VateudCoreLibrary.ts`).
-/

/-- Job categories accepted by `JobLibrary.scheduleJob`; the sync client only
ever schedules `VATEUD_CORE` jobs. -/
inductive JobTypeEnum
  | VATEUD_CORE
deriving DecidableEq

/-- Discriminates the payload of a VATEUD Core delivery job. -/
inductive VateudCoreTypeEnum
  | SOLO_CREATE
  | SOLO_REMOVE
deriving DecidableEq

/-- Body of the `POST /solo` request (`soloInfo.post_data`). -/
structure SoloCreatePostData where
  user_id : Nat
  position : String
  instructor_cid : Nat
  expires_at : String
deriving DecidableEq

/-- Argument of `createSolo` (`VateudCoreSoloCreateT`). -/
structure VateudCoreSoloCreateT where
  local_solo_id : Nat
  post_data : SoloCreatePostData
deriving DecidableEq

/-- Argument of `removeSolo` (`VateudCoreSoloRemoveT`). -/
structure VateudCoreSoloRemoveT where
  local_solo_id : Nat
  vateud_solo_id : Nat
deriving DecidableEq

/-- Inner payload of a successful `POST /solo` response. -/
structure SoloCreateResponseData where
  id : Nat
deriving DecidableEq

/-- Successful response of the VATEUD create call (`{data: {id}}`). -/
structure VateudCoreSoloCreateResponseT where
  data : SoloCreateResponseData
deriving DecidableEq

/-- Successful response of the VATEUD remove call; its contents are never
inspected by the client, only its presence. -/
structure VateudCoreSoloRemoveResponseT where
  acknowledged : Bool
deriving DecidableEq

/-- Environment outcome of one `_send` call: the API key may be absent from
the configuration, axios may reject (network failure, or a non-2xx response,
which axios also surfaces as a rejection), or the call resolves with a
payload. -/
inductive SendOutcome (T : Type)
  | missingApiKey
  | networkError
  | httpError
  | success (d : T)

/-- Embeds `_send`: a missing API key logs and returns `undefined`; a
rejected request is caught and returns `undefined`; otherwise the response
payload is returned.  Every failure collapses to `none`. -/
def _send {T : Type} (outcome : SendOutcome T) : Option T :=
  match outcome with
  | .missingApiKey => none
  | .networkError => none
  | .httpError => none
  | .success d => some d

/-- Payload of a scheduled solo-create retry job (the `solo_create` object
built inside `createSolo`). -/
structure SoloCreateJobData where
  local_solo_id : Nat
  user_id : Nat
  position : String
  instructor_cid : Nat
  expire_at : String
deriving DecidableEq

/-- Payload of a scheduled solo-remove retry job (the `solo_remove` object
built inside `removeSolo`). -/
structure SoloRemoveJobData where
  local_solo_id : Nat
  vateud_solo_id : Nat
deriving DecidableEq

/-- Discriminated payload of a VATEUD Core delivery job. -/
inductive VateudCoreJobData
  | solo_create (d : SoloCreateJobData)
  | solo_remove (d : SoloRemoveJobData)
deriving DecidableEq

/-- One persisted delivery job as handed to `JobLibrary.scheduleJob`. -/
structure ScheduledJob where
  job_type : JobTypeEnum
  type : VateudCoreTypeEnum
  method : String
  data : VateudCoreJobData
deriving DecidableEq

/-- One row of the `UserSolo` table, restricted to the columns the sync
client touches. -/
structure UserSoloRecord where
  id : Nat
  vateud_solo_id : Option Nat
deriving DecidableEq

/-- Persistent state visible to the sync client: the `UserSolo` table and
the list of scheduled delivery jobs. -/
structure SyncState where
  userSolos : List UserSoloRecord
  jobs : List ScheduledJob
deriving DecidableEq

/-- Embeds `JobLibrary.scheduleJob` (external collaborator): persists one new
delivery job. -/
def scheduleJob (st : SyncState) (job : ScheduledJob) : SyncState :=
  { st with jobs := st.jobs ++ [job] }

/-- The retry job built by `createSolo` on failure: kind `SOLO_CREATE`, with
the local correlation id and every field of the original request. -/
def soloCreateRetryJob (soloInfo : VateudCoreSoloCreateT) : ScheduledJob :=
  { job_type := .VATEUD_CORE
    type := .SOLO_CREATE
    method := "post"
    data := .solo_create
      { local_solo_id := soloInfo.local_solo_id
        user_id := soloInfo.post_data.user_id
        position := soloInfo.post_data.position
        instructor_cid := soloInfo.post_data.instructor_cid
        expire_at := soloInfo.post_data.expires_at } }

/-- The retry job built by `removeSolo` on failure: kind `SOLO_REMOVE`, with
the local and remote identifiers. -/
def soloRemoveRetryJob (soloInfo : VateudCoreSoloRemoveT) : ScheduledJob :=
  { job_type := .VATEUD_CORE
    type := .SOLO_REMOVE
    method := "delete"
    data := .solo_remove
      { local_solo_id := soloInfo.local_solo_id
        vateud_solo_id := soloInfo.vateud_solo_id } }

/-- Embeds `UserSolo.update({vateud_solo_id}, {where: {id}})`: writes the
remote identifier onto every row whose id matches. -/
def userSoloUpdate (vid : Nat) (localId : Nat) (solos : List UserSoloRecord) :
    List UserSoloRecord :=
  solos.map (fun r => if r.id == localId then { r with vateud_solo_id := some vid } else r)

/-- Embeds `createSolo`: one inline `_send`; on failure (result `undefined`)
it schedules one retry job and returns `undefined`; on success it writes the
returned remote id onto the `UserSolo` row keyed by `local_solo_id` and
returns the response.  The TypeScript function never throws: `_send`
swallows its own failures and the failure branch only schedules a job. -/
def createSolo (outcome : SendOutcome VateudCoreSoloCreateResponseT)
    (soloInfo : VateudCoreSoloCreateT) (st : SyncState) :
    Option VateudCoreSoloCreateResponseT × SyncState :=
  match _send outcome with
  | none => (none, scheduleJob st (soloCreateRetryJob soloInfo))
  | some res =>
      (some res, { st with userSolos := userSoloUpdate res.data.id soloInfo.local_solo_id st.userSolos })

/-- Embeds `removeSolo`: one inline `_send`; on failure it schedules one
retry job.  The TypeScript function returns `undefined` in every case, so
only the state is produced here. -/
def removeSolo (outcome : SendOutcome VateudCoreSoloRemoveResponseT)
    (soloInfo : VateudCoreSoloRemoveT) (st : SyncState) : SyncState :=
  match _send outcome with
  | none => scheduleJob st (soloRemoveRetryJob soloInfo)
  | some _ => st

/-!
Part two: the VATSIM Connect login library (`VatsimConnectLibrary`).
-/

/-- Payload of a successful `POST /oauth/token` response
(`VatsimOauthToken`).  Fields are optional because the JavaScript object may
lack any of them. -/
structure VatsimOauthToken where
  access_token : Option String
  refresh_token : Option String
  scopes : Option (List String)
deriving DecidableEq

/-- Country object inside the profile (`data.personal.country`). -/
structure CountryInfo where
  id : String
  name : String
deriving DecidableEq

/-- Rating object inside the profile (`rating` / `pilotrating`). -/
structure RatingInfo where
  id : Int
deriving DecidableEq

/-- Region-shaped object inside the profile (`region`, `division`,
`subdivision`). -/
structure RegionInfo where
  id : String
  name : String
deriving DecidableEq

/-- The `data.personal` object of the VATSIM profile document. -/
structure PersonalData where
  name_first : String
  name_last : String
  email : String
  country : CountryInfo
deriving DecidableEq

/-- The `data.vatsim` object of the VATSIM profile document.  The
`token_valid` field here is modelled from the spec, whose interface
description lists `token_valid` under `data.vatsim`; the implementation
never reads this copy (it reads `data.oauth.token_valid`). -/
structure VatsimDetails where
  rating : RatingInfo
  pilotrating : RatingInfo
  region : RegionInfo
  division : RegionInfo
  subdivision : RegionInfo
  token_valid : Option String
deriving DecidableEq

/-- The `data.oauth` object of the VATSIM profile document; this is the
field `_updateDatabase` actually reads. -/
structure OauthDetails where
  token_valid : Option String
deriving DecidableEq

/-- The `data` object of the VATSIM profile document. -/
structure VatsimUserDataInner where
  cid : Nat
  personal : PersonalData
  vatsim : VatsimDetails
  oauth : OauthDetails
deriving DecidableEq

/-- The VATSIM profile document (`VatsimUserData`). -/
structure VatsimUserData where
  data : VatsimUserDataInner
deriving DecidableEq

/-- The error kinds of `VatsimConnectException` (`ConnectLibraryErrors`). -/
inductive ConnectLibraryErrors
  | ERR_NO_CODE
  | ERR_INV_CODE
  | ERR_INV_SCOPES
  | ERR_SUSPENDED
  | ERR_UNABLE_CREATE_SESSION
deriving DecidableEq

/-- A failure escaping a login step: either a `VatsimConnectException`
(carrying an optional error kind; `none` is the generic constructor call
`new VatsimConnectException()`), or the uncaught JavaScript `TypeError`
raised when the token-exchange catch block dereferences
`e.response.data.hint` on an error that has no such field. -/
inductive LoginFailure
  | vatsimConnectError (err : Option ConnectLibraryErrors)
  | jsTypeError
deriving DecidableEq

/-- Environment outcome of the `POST /oauth/token` call: axios resolves
(with a possibly-absent payload object), rejects with a response whose
`data.hint` is a string, or rejects with no such `hint` (plain network
failure, or an error body without the field). -/
inductive TokenExchangeOutcome
  | resolved (data : Option VatsimOauthToken)
  | rejectedWithHint (hint : String)
  | rejectedNoHint
deriving DecidableEq

/-- The token-related instance fields set by `_queryAccessTokens`. -/
structure TokensState where
  m_accessToken : Option String
  m_refreshToken : Option String
  m_suppliedScopes : Option (List String)
deriving DecidableEq

/-- Embeds `_queryAccessTokens`.  On a rejection whose hint mentions
`revoked` (lower-cased substring test) it throws `ERR_INV_CODE`; on a
rejection with a hint not mentioning it the catch block falls through, the
response object stays `{}` and the null check throws `ERR_INV_SCOPES`; on a
rejection without a hint the catch block itself raises a `TypeError`; on a
resolved call without a payload the null check throws `ERR_INV_SCOPES`;
otherwise the three token fields are recorded. -/
def _queryAccessTokens (outcome : TokenExchangeOutcome) :
    Except LoginFailure TokensState :=
  match outcome with
  | .rejectedNoHint => .error .jsTypeError
  | .rejectedWithHint hint =>
      if strContains (strToLower hint) "revoked" then
        .error (.vatsimConnectError (some .ERR_INV_CODE))
      else
        .error (.vatsimConnectError (some .ERR_INV_SCOPES))
  | .resolved none => .error (.vatsimConnectError (some .ERR_INV_SCOPES))
  | .resolved (some tok) => .ok ⟨tok.access_token, tok.refresh_token, tok.scopes⟩

/-- Environment outcome of the `GET /api/user` call. -/
inductive ProfileFetchOutcome
  | resolved (data : Option VatsimUserData)
  | rejected
deriving DecidableEq

/-- Embeds `_queryUserData`: returns `null` at once when no access token is
on hand; a rejected call is swallowed and yields an absent payload;
otherwise the response payload (possibly absent) is stored. -/
def _queryUserData (m_accessToken : Option String) (outcome : ProfileFetchOutcome) :
    Option VatsimUserData :=
  match m_accessToken with
  | none => none
  | some _ =>
      match outcome with
      | .rejected => none
      | .resolved d => d

/-- Embeds `_validateSuppliedScopes`: the required scopes are the configured
`client_scopes` string split on spaces; the loop throws `ERR_INV_SCOPES` at
the first required scope missing from the supplied list, and a wholly absent
supplied-scope list throws the generic exception. -/
def _validateSuppliedScopes (m_suppliedScopes : Option (List String))
    (client_scopes : String) : Except LoginFailure Unit :=
  match m_suppliedScopes with
  | none => .error (.vatsimConnectError none)
  | some supplied =>
      if (splitSpaces client_scopes).all (fun s => supplied.contains s) then .ok ()
      else .error (.vatsimConnectError (some .ERR_INV_SCOPES))

/-- Embeds `_checkIsUserSuspended`: with no user data it returns silently;
otherwise it throws `ERR_SUSPENDED` when the membership helper reports a ban
or when the controller rating id is the reserved value 0. -/
def _checkIsUserSuspended (m_userData : Option VatsimUserData) (banned : Bool) :
    Except LoginFailure Unit :=
  match m_userData with
  | none => .ok ()
  | some ud =>
      if banned ∨ ud.data.vatsim.rating.id = 0 then
        .error (.vatsimConnectError (some .ERR_SUSPENDED))
      else .ok ()

/-- One row of the `User` table, restricted to the columns written during
login (`User.upsert`). -/
structure UserRow where
  id : Nat
  first_name : String
  last_name : String
  email : String
  access_token : Option String
  refresh_token : Option String
deriving DecidableEq

/-- One row of the `UserData` table (`UserData.upsert`). -/
structure UserDataRow where
  user_id : Nat
  rating_atc : Int
  rating_pilot : Int
  country_code : String
  country_name : String
  region_name : String
  region_code : String
  division_name : String
  division_code : String
  subdivision_name : String
  subdivision_code : String
deriving DecidableEq

/-- One row of the `UserSession` table. -/
structure UserSessionRow where
  user_id : Nat
  browser_uuid : String
  token : String
  remember : Bool
deriving DecidableEq

/-- One row of the `UserSettings` table, restricted to the defaults written
by `findOrCreate`. -/
structure UserSettingsRow where
  user_id : Nat
  language : String
  email_notifications_enabled : Bool
deriving DecidableEq

/-- The relational store as seen by the login library. -/
structure Database where
  users : List UserRow
  userData : List UserDataRow
  userSessions : List UserSessionRow
  userSettings : List UserSettingsRow
deriving DecidableEq

/-- A line written through the logging collaborator. -/
structure LogEntry where
  message : String
deriving DecidableEq

/-- Embeds the expression
`this.m_userData.data.oauth.token_valid?.toLowerCase() === "true"`:
optional chaining makes an absent field compare unequal. -/
def tokenValid (ud : VatsimUserData) : Bool :=
  match ud.data.oauth.token_valid with
  | some s => strToLower s == "true"
  | none => false

/-- Embeds `User.upsert`: replaces the row with the same primary key, or
appends a new row. -/
def upsertUser (row : UserRow) (users : List UserRow) : List UserRow :=
  if users.any (fun r => r.id == row.id) then
    users.map (fun r => if r.id == row.id then row else r)
  else users ++ [row]

/-- Embeds `UserData.upsert`: replaces the row with the same `user_id`, or
appends a new row. -/
def upsertUserData (row : UserDataRow) (rows : List UserDataRow) : List UserDataRow :=
  if rows.any (fun r => r.user_id == row.user_id) then
    rows.map (fun r => if r.user_id == row.user_id then row else r)
  else rows ++ [row]

/-- The `User` row built inside `_updateDatabase`: profile names and email,
and the tokens only when `tokenValid` holds, `null` otherwise. -/
def userRowOf (ud : VatsimUserData) (m_accessToken m_refreshToken : Option String) :
    UserRow :=
  { id := ud.data.cid
    first_name := ud.data.personal.name_first
    last_name := ud.data.personal.name_last
    email := ud.data.personal.email
    access_token := if tokenValid ud then m_accessToken else none
    refresh_token := if tokenValid ud then m_refreshToken else none }

/-- The `UserData` row built inside `_updateDatabase`. -/
def userDataRowOf (ud : VatsimUserData) : UserDataRow :=
  { user_id := ud.data.cid
    rating_atc := ud.data.vatsim.rating.id
    rating_pilot := ud.data.vatsim.pilotrating.id
    country_code := ud.data.personal.country.id
    country_name := ud.data.personal.country.name
    region_name := ud.data.vatsim.region.name
    region_code := ud.data.vatsim.region.id
    division_name := ud.data.vatsim.division.name
    division_code := ud.data.vatsim.division.id
    subdivision_name := ud.data.vatsim.subdivision.name
    subdivision_code := ud.data.vatsim.subdivision.id }

/-- Embeds `_validateUserData`: it checks that `cid` is a non-null number
and that `personal` and `vatsim` are non-null objects.  Every well-typed
`VatsimUserData` of this embedding satisfies those structural checks, so the
validator always reports valid. -/
def _validateUserData (_ud : VatsimUserData) : Bool := true

/-- Environment outcome of the sequelize transaction wrapping the two
upserts of `_updateDatabase`: either both statements and the commit go
through, or some part fails and the transaction is rolled back. -/
inductive TransactionOutcome
  | commitOk
  | txFails
deriving DecidableEq

/-- Embeds `_updateDatabase`: absent or structurally invalid user data
throws the generic exception; otherwise both upserts run inside one
transaction — on commit both rows are durable, on failure the rollback
discards both, the exception is swallowed (the catch block only rolls back)
and no log entry is written. -/
def _updateDatabase (m_userData : Option VatsimUserData)
    (m_accessToken m_refreshToken : Option String) (tx : TransactionOutcome)
    (db : Database) (log : List LogEntry) :
    Except LoginFailure (Database × List LogEntry) :=
  match m_userData with
  | none => .error (.vatsimConnectError none)
  | some ud =>
      if _validateUserData ud = false then .error (.vatsimConnectError none)
      else
        match tx with
        | .commitOk =>
            .ok ({ db with
                    users := upsertUser (userRowOf ud m_accessToken m_refreshToken) db.users
                    userData := upsertUserData (userDataRowOf ud) db.userData }, log)
        | .txFails => .ok (db, log)

/-- Environment outcome of `createSessionToken`. -/
inductive SessionCreateOutcome
  | created (token : String)
  | failed
deriving DecidableEq

/-- Modelled from the spec: `createSessionToken` of the SessionLibrary is
not among the provided sources.  Per the spec it mints an opaque session
token bound to user, browser and remember policy, persists one new session
row, and may instead yield no session at all. -/
def createSessionToken (outcome : SessionCreateOutcome) (cid : Nat)
    (browserUUID : String) (m_remember : Bool) (db : Database) :
    Option String × Database :=
  match outcome with
  | .failed => (none, db)
  | .created tok =>
      (some tok, { db with userSessions := db.userSessions ++ [⟨cid, browserUUID, tok, m_remember⟩] })

/-- The `where` clause of the session destroy: rows matching both the user
identifier and the browser identifier. -/
def sessionMatches (cid : Nat) (browserUUID : String) (s : UserSessionRow) : Bool :=
  s.user_id == cid && s.browser_uuid == browserUUID

/-- Embeds `_handleSessionChange`: an absent browser identifier (or absent
request, response or user data) throws the generic exception; otherwise all
session rows for the (user, browser) pair are destroyed first and one new
session is created through `createSessionToken`. -/
def _handleSessionChange (browserUUID : Option String)
    (m_userData : Option VatsimUserData) (m_remember : Bool)
    (outcome : SessionCreateOutcome) (db : Database) :
    Except LoginFailure (Option String) × Database :=
  match browserUUID, m_userData with
  | none, _ => (.error (.vatsimConnectError none), db)
  | some _, none => (.error (.vatsimConnectError none), db)
  | some buid, some ud =>
      let db1 := { db with
        userSessions := db.userSessions.filter (fun s => !(sessionMatches ud.data.cid buid s)) }
      let r := createSessionToken outcome ud.data.cid buid m_remember db1
      (.ok r.1, r.2)

/-- Embeds `UserSettings.findOrCreate`: creates the default settings row for
the user when none exists, and never overwrites an existing row. -/
def userSettingsFindOrCreate (cid : Nat) (db : Database) : Database :=
  if db.userSettings.any (fun r => r.user_id == cid) then db
  else { db with userSettings := db.userSettings ++ [⟨cid, "de", true⟩] }

/-- The configured connect options (`ConnectOptions`). -/
structure ConnectOptions where
  client_id : String
  client_secret : String
  redirect_uri : String
  client_scopes : String
deriving DecidableEq

/-- The inbound request as the login library reads it: the authorization
code from the body (absent models JavaScript `null`/`undefined`) and the
`unique-browser-token` header. -/
structure LoginRequest where
  code : Option String
  browserUUID : Option String
deriving DecidableEq

/-- All external outcomes one login attempt can encounter, fixed up front:
the two network calls, the ban lookup, the reconciliation transaction and
the session-token creation. -/
structure LoginEnv where
  exchange : TokenExchangeOutcome
  profile : ProfileFetchOutcome
  banned : Bool
  tx : TransactionOutcome
  sessionCreate : SessionCreateOutcome
deriving DecidableEq

/-- The observable steps of one login attempt, in source order. -/
inductive LoginStep
  | codeExchange
  | profileFetch
  | scopeValidation
  | suspensionCheck
  | reconciliation
  | sessionCreation
deriving DecidableEq

/-- The full step order of `login` as written in the source. -/
def loginStepOrder : List LoginStep :=
  [.codeExchange, .profileFetch, .scopeValidation, .suspensionCheck,
   .reconciliation, .sessionCreation]

/-- The terminal outcome of one login attempt: the success response carrying
the user's cid, the bare 500 sent when the profile document is absent, or a
raised failure. -/
inductive LoginRes
  | success (cid : Nat)
  | internalServerError
  | fail (e : LoginFailure)
deriving DecidableEq

/-- Result, final store and executed steps of one login attempt. -/
structure LoginOutcome where
  result : LoginRes
  db : Database
  steps : List LoginStep
deriving DecidableEq

/-- Embeds `login`: the null check on the code, then the strictly sequential
steps — token exchange, profile fetch (absent profile answers 500), scope
validation, suspension check, reconciliation, settings `findOrCreate`, and
the session replacement, whose absent session throws
`ERR_UNABLE_CREATE_SESSION`.  Each executed step is recorded in order. -/
def login (opts : ConnectOptions) (m_remember : Bool) (req : LoginRequest)
    (env : LoginEnv) (db : Database) : LoginOutcome :=
  match req.code with
  | none => ⟨.fail (.vatsimConnectError (some .ERR_NO_CODE)), db, []⟩
  | some _ =>
      match _queryAccessTokens env.exchange with
      | .error e => ⟨.fail e, db, [.codeExchange]⟩
      | .ok toks =>
          match _queryUserData toks.m_accessToken env.profile with
          | none => ⟨.internalServerError, db, [.codeExchange, .profileFetch]⟩
          | some ud =>
              match _validateSuppliedScopes toks.m_suppliedScopes opts.client_scopes with
              | .error e => ⟨.fail e, db, [.codeExchange, .profileFetch, .scopeValidation]⟩
              | .ok _ =>
                  match _checkIsUserSuspended (some ud) env.banned with
                  | .error e =>
                      ⟨.fail e, db,
                        [.codeExchange, .profileFetch, .scopeValidation, .suspensionCheck]⟩
                  | .ok _ =>
                      match _updateDatabase (some ud) toks.m_accessToken toks.m_refreshToken
                          env.tx db [] with
                      | .error e =>
                          ⟨.fail e, db,
                            [.codeExchange, .profileFetch, .scopeValidation,
                             .suspensionCheck, .reconciliation]⟩
                      | .ok (db2, _) =>
                          let db3 := userSettingsFindOrCreate ud.data.cid db2
                          match _handleSessionChange req.browserUUID (some ud) m_remember
                              env.sessionCreate db3 with
                          | (.error e, db4) => ⟨.fail e, db4, loginStepOrder⟩
                          | (.ok none, db4) =>
                              ⟨.fail (.vatsimConnectError (some .ERR_UNABLE_CREATE_SESSION)),
                               db4, loginStepOrder⟩
                          | (.ok (some _), db4) => ⟨.success ud.data.cid, db4, loginStepOrder⟩

/-!
Sample values used by concrete witnesses and counterexamples.
-/

/-- A concrete solo-create argument. -/
def sampleCreateInfo : VateudCoreSoloCreateT :=
  { local_solo_id := 7
    post_data :=
      { user_id := 1653030
        position := "EDDF_TWR"
        instructor_cid := 1000010
        expires_at := "2024-06-01T00:00:00Z" } }

/-- A concrete solo-remove argument. -/
def sampleRemoveInfo : VateudCoreSoloRemoveT :=
  { local_solo_id := 7, vateud_solo_id := 99 }

/-- The empty sync-client state. -/
def emptySyncState : SyncState := { userSolos := [], jobs := [] }

/-!
Theorems.
-/

/-- C1: for every solo-create or solo-remove call whose single inline sync
request fails for any reason (missing API key, network error, non-2xx —
exactly the cases where `_send` yields `undefined`), the call returns
`undefined` without raising (`createSolo` returns `none`; `removeSolo`
always returns `undefined`), exactly one delivery job of the matching kind
is appended whose payload carries the same `local_solo_id` and every field
of the original call, and no solo record is touched; when the inline request
succeeds, no job is scheduled. -/
theorem soloSync_failure_schedules_one_matching_job
    (ocC : SendOutcome VateudCoreSoloCreateResponseT)
    (ocR : SendOutcome VateudCoreSoloRemoveResponseT)
    (ci : VateudCoreSoloCreateT) (ri : VateudCoreSoloRemoveT) (st stR : SyncState) :
    (_send ocC = none →
      (createSolo ocC ci st).1 = none ∧
      (createSolo ocC ci st).2.userSolos = st.userSolos ∧
      (createSolo ocC ci st).2.jobs = st.jobs ++
        [{ job_type := .VATEUD_CORE
           type := .SOLO_CREATE
           method := "post"
           data := .solo_create
             ⟨ci.local_solo_id, ci.post_data.user_id, ci.post_data.position,
              ci.post_data.instructor_cid, ci.post_data.expires_at⟩ }]) ∧
    (∀ r, _send ocC = some r → (createSolo ocC ci st).2.jobs = st.jobs) ∧
    (_send ocR = none →
      (removeSolo ocR ri stR).userSolos = stR.userSolos ∧
      (removeSolo ocR ri stR).jobs = stR.jobs ++
        [{ job_type := .VATEUD_CORE
           type := .SOLO_REMOVE
           method := "delete"
           data := .solo_remove ⟨ri.local_solo_id, ri.vateud_solo_id⟩ }]) ∧
    (∀ r, _send ocR = some r → (removeSolo ocR ri stR).jobs = stR.jobs) := by
  refine ⟨?_, ?_, ?_, ?_⟩
  · intro h
    cases ocC <;> simp_all [_send, createSolo, scheduleJob, soloCreateRetryJob]
  · intro r h
    cases ocC <;> simp_all [_send, createSolo]
  · intro h
    cases ocR <;> simp_all [_send, removeSolo, scheduleJob, soloRemoveRetryJob]
  · intro r h
    cases ocR <;> simp_all [_send, removeSolo]

/-- Witness for C1 at a concrete failing create (network error) and a
concrete failing remove (missing API key), starting from the empty state. -/
theorem soloSync_failure_schedules_one_matching_job_witness :
    (createSolo .networkError sampleCreateInfo emptySyncState).1 = none ∧
    (createSolo .networkError sampleCreateInfo emptySyncState).2.jobs =
      emptySyncState.jobs ++
        [{ job_type := .VATEUD_CORE
           type := .SOLO_CREATE
           method := "post"
           data := .solo_create
             ⟨sampleCreateInfo.local_solo_id, sampleCreateInfo.post_data.user_id,
              sampleCreateInfo.post_data.position,
              sampleCreateInfo.post_data.instructor_cid,
              sampleCreateInfo.post_data.expires_at⟩ }] ∧
    (removeSolo .missingApiKey sampleRemoveInfo emptySyncState).jobs =
      emptySyncState.jobs ++
        [{ job_type := .VATEUD_CORE
           type := .SOLO_REMOVE
           method := "delete"
           data := .solo_remove
             ⟨sampleRemoveInfo.local_solo_id, sampleRemoveInfo.vateud_solo_id⟩ }] := by
  have h := soloSync_failure_schedules_one_matching_job
    (SendOutcome.networkError) (SendOutcome.missingApiKey)
    sampleCreateInfo sampleRemoveInfo emptySyncState emptySyncState
  exact ⟨(h.1 rfl).1, (h.1 rfl).2.2, (h.2.2.1 rfl).2⟩

/-- C7: for every solo-create whose inline sync call succeeds, the remote id
of the response is written onto exactly the `UserSolo` rows whose id equals
the payload's `local_solo_id` (all other rows unchanged), no retry job is
scheduled, and the response is returned. -/
theorem createSolo_success_writes_remote_id
    (res : VateudCoreSoloCreateResponseT) (ci : VateudCoreSoloCreateT) (st : SyncState) :
    (createSolo (.success res) ci st).1 = some res ∧
    (createSolo (.success res) ci st).2.jobs = st.jobs ∧
    (createSolo (.success res) ci st).2.userSolos =
      st.userSolos.map (fun r =>
        if r.id == ci.local_solo_id then { r with vateud_solo_id := some res.data.id } else r) := by
  refine ⟨rfl, rfl, ?_⟩
  simp [createSolo, _send, userSoloUpdate]

/-- The empty relational store. -/
def emptyDb : Database :=
  { users := [], userData := [], userSessions := [], userSettings := [] }

/-- A concrete profile document whose provider marked the tokens valid in
the `data.oauth` object read by the implementation. -/
def sampleUd : VatsimUserData :=
  { data :=
      { cid := 1000001
        personal :=
          { name_first := "Ada"
            name_last := "Lovelace"
            email := "ada@example.org"
            country := { id := "DE", name := "Germany" } }
        vatsim :=
          { rating := { id := 3 }
            pilotrating := { id := 1 }
            region := { id := "EMEA", name := "Europe" }
            division := { id := "EUD", name := "VATEUD" }
            subdivision := { id := "GER", name := "Germany" }
            token_valid := some "true" }
        oauth := { token_valid := some "true" } } }

/-- A concrete profile document whose `data.vatsim.token_valid` field (the
location named by the spec's interface description) marks the tokens valid
while the `data.oauth.token_valid` field read by the implementation is
absent. -/
def sampleUdVatsimFlag : VatsimUserData :=
  { data :=
      { cid := 1000002
        personal :=
          { name_first := "Grace"
            name_last := "Hopper"
            email := "grace@example.org"
            country := { id := "US", name := "United States" } }
        vatsim :=
          { rating := { id := 5 }
            pilotrating := { id := 0 }
            region := { id := "AMAS", name := "Americas" }
            division := { id := "USA", name := "United States" }
            subdivision := { id := "NONE", name := "None" }
            token_valid := some "true" }
        oauth := { token_valid := none } } }

/-- C2 counterexample: at a concrete failing reconciliation transaction the
failure is swallowed (the call still returns normally) and the store is
rolled back, but the log is left exactly as it was — empty — because the
catch block of `_updateDatabase` only rolls back and never writes a log
line.  This refutes the claim's assertion that the failure is logged. -/
theorem updateDatabase_txFailure_writes_no_log_entry :
    _updateDatabase (some sampleUd) (some "acc-tok") (some "ref-tok") .txFails emptyDb [] =
      .ok (emptyDb, ([] : List LogEntry)) := rfl

/-- C2 amended: during login or refresh the Identity (`User`) upsert and the
ProfileFacts (`UserData`) upsert run inside one transaction, so both become
durable on commit and neither survives a failure; a failure is caught and
does not propagate (the call returns normally with the store unchanged), but
no log entry is written — the catch block only rolls back. -/
theorem updateDatabase_atomic_and_failure_swallowed_unlogged (ud : VatsimUserData)
    (tokA tokR : Option String) (db : Database) (log : List LogEntry) :
    _updateDatabase (some ud) tokA tokR .commitOk db log =
      .ok ({ db with
              users := upsertUser (userRowOf ud tokA tokR) db.users
              userData := upsertUserData (userDataRowOf ud) db.userData }, log) ∧
    _updateDatabase (some ud) tokA tokR .txFails db log = .ok (db, log) :=
  ⟨rfl, rfl⟩

/-- C9 counterexample: a concrete reconciliation in which the provider's
profile document marks the tokens valid at `data.vatsim.token_valid` — the
location the claim names — yet the persisted Identity row carries no tokens,
because the implementation reads `data.oauth.token_valid`, which is absent
here. -/
theorem updateDatabase_ignores_vatsim_token_flag :
    sampleUdVatsimFlag.data.vatsim.token_valid = some "true" ∧
    _updateDatabase (some sampleUdVatsimFlag) (some "acc-tok") (some "ref-tok")
        .commitOk emptyDb [] =
      .ok ({ emptyDb with
              users := [userRowOf sampleUdVatsimFlag (some "acc-tok") (some "ref-tok")]
              userData := [userDataRowOf sampleUdVatsimFlag] }, []) ∧
    (userRowOf sampleUdVatsimFlag (some "acc-tok") (some "ref-tok")).access_token = none ∧
    (userRowOf sampleUdVatsimFlag (some "acc-tok") (some "ref-tok")).refresh_token = none :=
  ⟨rfl, rfl, rfl, rfl⟩

/-- C9 amended: on every successful reconciliation the Identity row's token
columns carry the provider-supplied tokens exactly when the profile document
marks them valid via `data.oauth.token_valid` (a string equal to `true` up
to lower-casing) — the field actually read by the implementation, not the
`data.vatsim` location given in the spec's interface description — and are
persisted as absent in every other case. -/
theorem updateDatabase_tokens_follow_oauth_flag (ud : VatsimUserData)
    (tokA tokR : Option String) (db : Database) (log : List LogEntry) :
    _updateDatabase (some ud) tokA tokR .commitOk db log =
      .ok ({ db with
              users := upsertUser (userRowOf ud tokA tokR) db.users
              userData := upsertUserData (userDataRowOf ud) db.userData }, log) ∧
    (userRowOf ud tokA tokR).access_token = (if tokenValid ud then tokA else none) ∧
    (userRowOf ud tokA tokR).refresh_token = (if tokenValid ud then tokR else none) ∧
    (tokenValid ud = true ↔
      ∃ s, ud.data.oauth.token_valid = some s ∧ strToLower s = "true") := by
  refine ⟨rfl, rfl, rfl, ?_⟩
  unfold tokenValid
  cases hc : ud.data.oauth.token_valid <;> simp [hc]

/-- C5 counterexample: a token-exchange rejection carrying no provider hint
(a plain network failure, or an error body without the `hint` field) makes
the catch block of `_queryAccessTokens` dereference `e.response.data.hint`
on `undefined`, raising a `TypeError` — not the `InvalidScopesError` the
claim asserts for every non-revoked failure. -/
theorem queryAccessTokens_hintless_rejection_is_type_error :
    _queryAccessTokens .rejectedNoHint = .error .jsTypeError ∧
    _queryAccessTokens .rejectedNoHint ≠
      .error (.vatsimConnectError (some .ERR_INV_SCOPES)) :=
  ⟨rfl, by simp [_queryAccessTokens]⟩

/-- C5 amended: when the token-exchange rejection carries a provider hint,
a hint mentioning `revoked` (case-insensitively) fails with
`InvalidCodeError` and any other hint fails with `InvalidScopesError`; a
resolved exchange without a usable payload also fails with
`InvalidScopesError`; but a rejection carrying no hint raises an uncaught
`TypeError` from the catch block itself. -/
theorem queryAccessTokens_failure_taxonomy (hint : String) :
    (strContains (strToLower hint) "revoked" = true →
      _queryAccessTokens (.rejectedWithHint hint) =
        .error (.vatsimConnectError (some .ERR_INV_CODE))) ∧
    (strContains (strToLower hint) "revoked" = false →
      _queryAccessTokens (.rejectedWithHint hint) =
        .error (.vatsimConnectError (some .ERR_INV_SCOPES))) ∧
    _queryAccessTokens (.resolved none) =
      .error (.vatsimConnectError (some .ERR_INV_SCOPES)) ∧
    _queryAccessTokens .rejectedNoHint = .error .jsTypeError := by
  refine ⟨?_, ?_, rfl, rfl⟩
  · intro h
    simp [_queryAccessTokens, h]
  · intro h
    simp [_queryAccessTokens, h]

/-- Witness for C5 at two concrete hints: one mentioning a revoked code,
one not. -/
theorem queryAccessTokens_failure_taxonomy_witness :
    _queryAccessTokens (.rejectedWithHint "Authorization code has been Revoked") =
      .error (.vatsimConnectError (some .ERR_INV_CODE)) ∧
    _queryAccessTokens (.rejectedWithHint "invalid client credentials") =
      .error (.vatsimConnectError (some .ERR_INV_SCOPES)) :=
  ⟨(queryAccessTokens_failure_taxonomy "Authorization code has been Revoked").1 (by decide),
   (queryAccessTokens_failure_taxonomy "invalid client credentials").2.1 (by decide)⟩

/-- C6: for every login that reaches scope validation (a supplied-scope list
is on hand), validation fails with `InvalidScopesError` exactly when some
deployment-required scope — the configured string split on spaces — is
missing from the scopes the provider granted; when every required scope was
granted, the step passes. -/
theorem validateSuppliedScopes_superset_iff (supplied : List String) (cs : String) :
    (_validateSuppliedScopes (some supplied) cs =
        .error (.vatsimConnectError (some .ERR_INV_SCOPES)) ↔
      ¬ ∀ s ∈ splitSpaces cs, s ∈ supplied) ∧
    ((∀ s ∈ splitSpaces cs, s ∈ supplied) →
      _validateSuppliedScopes (some supplied) cs = .ok ()) := by
  have hiff : ((splitSpaces cs).all (fun s => supplied.contains s) = true) ↔
      ∀ s ∈ splitSpaces cs, s ∈ supplied := by
    simp [List.all_eq_true]
  by_cases hall : ∀ s ∈ splitSpaces cs, s ∈ supplied
  · have hv : _validateSuppliedScopes (some supplied) cs = .ok () := by
      simp only [_validateSuppliedScopes]
      rw [if_pos (hiff.mpr hall)]
    exact ⟨iff_of_false (by simp [hv]) (not_not_intro hall), fun _ => hv⟩
  · have hv : _validateSuppliedScopes (some supplied) cs =
        .error (.vatsimConnectError (some .ERR_INV_SCOPES)) := by
      simp only [_validateSuppliedScopes]
      rw [if_neg (fun hc => hall (hiff.mp hc))]
    exact ⟨iff_of_true hv hall, fun h => absurd h hall⟩

/-- Witness for C6: the spec's own scenario scopes — granted
`full_name vatsim_details email`, required `full_name vatsim_details email`
— pass validation. -/
theorem validateSuppliedScopes_superset_iff_witness :
    _validateSuppliedScopes (some ["full_name", "vatsim_details", "email"])
      "full_name vatsim_details email" = .ok () :=
  (validateSuppliedScopes_superset_iff ["full_name", "vatsim_details", "email"]
    "full_name vatsim_details email").2 (by decide)

/-- Rows surviving a filter that excludes the matching ones are never
counted as matching. -/
theorem countP_not_in_filtered {α : Type} (p : α → Bool) (l : List α) :
    (l.filter (fun a => !(p a))).countP p = 0 := by
  rw [List.countP_eq_zero]
  intro a ha
  have h := List.of_mem_filter ha
  simp at h
  simp [h]

/-- The settings `findOrCreate` never touches session rows. -/
theorem userSettingsFindOrCreate_sessions (cid : Nat) (db : Database) :
    (userSettingsFindOrCreate cid db).userSessions = db.userSessions := by
  unfold userSettingsFindOrCreate
  split <;> rfl

/-- A reconciliation that returns normally never touches session rows. -/
theorem updateDatabase_ok_preserves_sessions (ud : VatsimUserData)
    (tokA tokR : Option String) (tx : TransactionOutcome) (db db2 : Database)
    (log log2 : List LogEntry)
    (h : _updateDatabase (some ud) tokA tokR tx db log = .ok (db2, log2)) :
    db2.userSessions = db.userSessions := by
  cases tx <;> simp [_updateDatabase, _validateUserData] at h <;>
    obtain ⟨h1, h2⟩ := h <;> subst h1 <;> rfl

/-- The token exchange never raises the missing-code error kind. -/
theorem queryAccessTokens_error_kinds (oc : TokenExchangeOutcome) (e : LoginFailure)
    (h : _queryAccessTokens oc = .error e) :
    e ≠ .vatsimConnectError (some .ERR_NO_CODE) := by
  cases oc with
  | resolved d =>
      cases d with
      | none =>
          simp [_queryAccessTokens] at h
          subst h
          simp
      | some tok => simp [_queryAccessTokens] at h
  | rejectedWithHint hint =>
      simp only [_queryAccessTokens] at h
      split at h <;> simp at h <;> subst h <;> simp
  | rejectedNoHint =>
      simp [_queryAccessTokens] at h
      subst h
      simp

/-- Scope validation never raises the missing-code error kind. -/
theorem validateSuppliedScopes_error_kinds (ss : Option (List String)) (cs : String)
    (e : LoginFailure) (h : _validateSuppliedScopes ss cs = .error e) :
    e ≠ .vatsimConnectError (some .ERR_NO_CODE) := by
  cases ss with
  | none =>
      simp [_validateSuppliedScopes] at h
      subst h
      simp
  | some l =>
      simp only [_validateSuppliedScopes] at h
      split at h <;> simp at h
      subst h
      simp

/-- The suspension check never raises the missing-code error kind. -/
theorem checkIsUserSuspended_error_kinds (mu : Option VatsimUserData) (b : Bool)
    (e : LoginFailure) (h : _checkIsUserSuspended mu b = .error e) :
    e ≠ .vatsimConnectError (some .ERR_NO_CODE) := by
  cases mu with
  | none => simp [_checkIsUserSuspended] at h
  | some ud =>
      simp only [_checkIsUserSuspended] at h
      split at h <;> simp at h
      subst h
      simp

/-- The reconciliation never raises the missing-code error kind. -/
theorem updateDatabase_error_kinds (mu : Option VatsimUserData)
    (tokA tokR : Option String) (tx : TransactionOutcome) (db : Database)
    (log : List LogEntry) (e : LoginFailure)
    (h : _updateDatabase mu tokA tokR tx db log = .error e) :
    e ≠ .vatsimConnectError (some .ERR_NO_CODE) := by
  cases mu with
  | none =>
      simp [_updateDatabase] at h
      subst h
      simp
  | some ud =>
      cases tx <;> simp [_updateDatabase, _validateUserData] at h

/-- Every failure escaping the session-change step is the generic
exception. -/
theorem handleSessionChange_error_generic (bu : Option String)
    (mu : Option VatsimUserData) (rem : Bool) (oc : SessionCreateOutcome)
    (db : Database) (e : LoginFailure)
    (h : (_handleSessionChange bu mu rem oc db).1 = .error e) :
    e = .vatsimConnectError none := by
  cases bu with
  | none =>
      simp [_handleSessionChange] at h
      exact h.symm
  | some b =>
      cases mu with
      | none =>
          simp [_handleSessionChange] at h
          exact h.symm
      | some ud => cases oc <;> simp [_handleSessionChange, createSessionToken] at h

/-- With any non-null code string — the empty string included — the
missing-code error kind can never be the outcome of `login`. -/
theorem login_some_code_not_no_code (opts : ConnectOptions) (rem : Bool)
    (c : String) (bu : Option String) (env : LoginEnv) (db : Database) :
    (login opts rem ⟨some c, bu⟩ env db).result ≠
      .fail (.vatsimConnectError (some .ERR_NO_CODE)) := by
  unfold login
  dsimp only
  cases hq : _queryAccessTokens env.exchange with
  | error e =>
      dsimp only
      intro h
      simp at h
      exact queryAccessTokens_error_kinds env.exchange e hq h
  | ok toks =>
      dsimp only
      cases hu : _queryUserData toks.m_accessToken env.profile with
      | none =>
          dsimp only
          intro h
          simp at h
      | some ud =>
          dsimp only
          cases hv : _validateSuppliedScopes toks.m_suppliedScopes opts.client_scopes with
          | error e =>
              dsimp only
              intro h
              simp at h
              exact validateSuppliedScopes_error_kinds toks.m_suppliedScopes
                opts.client_scopes e hv h
          | ok u =>
              cases u
              dsimp only
              cases hsus : _checkIsUserSuspended (some ud) env.banned with
              | error e =>
                  dsimp only
                  intro h
                  simp at h
                  exact checkIsUserSuspended_error_kinds (some ud) env.banned e hsus h
              | ok u2 =>
                  cases u2
                  dsimp only
                  cases hupd : _updateDatabase (some ud) toks.m_accessToken
                      toks.m_refreshToken env.tx db [] with
                  | error e =>
                      dsimp only
                      intro h
                      simp at h
                      exact updateDatabase_error_kinds (some ud) toks.m_accessToken
                        toks.m_refreshToken env.tx db [] e hupd h
                  | ok val =>
                      obtain ⟨db2, lg2⟩ := val
                      dsimp only
                      cases hs : _handleSessionChange bu (some ud) rem env.sessionCreate
                          (userSettingsFindOrCreate ud.data.cid db2) with
                      | mk r db4 =>
                          cases r with
                          | error e =>
                              dsimp only
                              intro h
                              simp at h
                              have hg := handleSessionChange_error_generic bu (some ud) rem
                                env.sessionCreate (userSettingsFindOrCreate ud.data.cid db2) e
                                (by rw [hs])
                              rw [hg] at h
                              simp at h
                          | ok o =>
                              cases o with
                              | none =>
                                  dsimp only
                                  intro h
                                  simp at h
                              | some tok =>
                                  dsimp only
                                  intro h
                                  simp at h

/-- With any non-null code string the token exchange is the first executed
step of `login`. -/
theorem login_some_code_first_step (opts : ConnectOptions) (rem : Bool)
    (c : String) (bu : Option String) (env : LoginEnv) (db : Database) :
    (login opts rem ⟨some c, bu⟩ env db).steps.head? = some .codeExchange := by
  unfold login
  dsimp only
  cases hq : _queryAccessTokens env.exchange with
  | error e => rfl
  | ok toks =>
      dsimp only
      cases hu : _queryUserData toks.m_accessToken env.profile with
      | none => rfl
      | some ud =>
          dsimp only
          cases hv : _validateSuppliedScopes toks.m_suppliedScopes opts.client_scopes with
          | error e => rfl
          | ok u =>
              cases u
              dsimp only
              cases hsus : _checkIsUserSuspended (some ud) env.banned with
              | error e => rfl
              | ok u2 =>
                  cases u2
                  dsimp only
                  cases hupd : _updateDatabase (some ud) toks.m_accessToken
                      toks.m_refreshToken env.tx db [] with
                  | error e => rfl
                  | ok val =>
                      obtain ⟨db2, lg2⟩ := val
                      dsimp only
                      cases hs : _handleSessionChange bu (some ud) rem env.sessionCreate
                          (userSettingsFindOrCreate ud.data.cid db2) with
                      | mk r db4 =>
                          cases r with
                          | error e => rfl
                          | ok o => cases o <;> rfl

/-- A concrete deployment configuration. -/
def optsSample : ConnectOptions :=
  { client_id := "tc-client"
    client_secret := "tc-secret"
    redirect_uri := "https://tc.example/login"
    client_scopes := "full_name vatsim_details email" }

/-- A concrete fully successful login environment. -/
def envSample : LoginEnv :=
  { exchange := .resolved
      (some ⟨some "acc-tok", some "ref-tok", some ["full_name", "vatsim_details", "email"]⟩)
    profile := .resolved (some sampleUd)
    banned := false
    tx := .commitOk
    sessionCreate := .created "sess-tok" }

/-- A concrete environment whose token exchange resolves without a usable
payload. -/
def envExchangeEmpty : LoginEnv :=
  { exchange := .resolved none
    profile := .rejected
    banned := false
    tx := .commitOk
    sessionCreate := .failed }

/-- C4 counterexample: a login called with the empty-string code — empty,
hence not a non-empty string — is not rejected with the missing-code error:
the `== null` check lets the empty string through, the token exchange is
executed (it is the first and only recorded step here), and the attempt
fails with a different error kind. -/
theorem login_empty_code_reaches_exchange :
    (login optsSample false ⟨some "", some "browser-1"⟩ envExchangeEmpty emptyDb).result =
      .fail (.vatsimConnectError (some .ERR_INV_SCOPES)) ∧
    (login optsSample false ⟨some "", some "browser-1"⟩ envExchangeEmpty emptyDb).result ≠
      .fail (.vatsimConnectError (some .ERR_NO_CODE)) ∧
    (login optsSample false ⟨some "", some "browser-1"⟩ envExchangeEmpty emptyDb).steps =
      [.codeExchange] := by
  refine ⟨rfl, ?_, rfl⟩
  intro h
  rw [show (login optsSample false ⟨some "", some "browser-1"⟩ envExchangeEmpty emptyDb).result =
      .fail (.vatsimConnectError (some .ERR_INV_SCOPES)) from rfl] at h
  simp at h

/-- C4 amended: `login` fails with `MissingCodeError` exactly when the
supplied code is null/undefined — in that case before any network call or
state change (no step runs, the store is untouched); any supplied string,
the empty string included, passes the check and the token exchange is
attempted as the first step. -/
theorem login_missing_code_iff_null (opts : ConnectOptions) (rem : Bool)
    (req : LoginRequest) (env : LoginEnv) (db : Database) :
    ((login opts rem req env db).result =
        .fail (.vatsimConnectError (some .ERR_NO_CODE)) ↔ req.code = none) ∧
    (req.code = none →
      login opts rem req env db =
        ⟨.fail (.vatsimConnectError (some .ERR_NO_CODE)), db, []⟩) ∧
    (∀ s, req.code = some s →
      (login opts rem req env db).steps.head? = some .codeExchange) := by
  obtain ⟨code?, bu⟩ := req
  cases code? with
  | none =>
      exact ⟨⟨fun _ => rfl, fun _ => rfl⟩, fun _ => rfl, fun s h => nomatch h⟩
  | some c =>
      refine ⟨?_, ?_, ?_⟩
      · exact ⟨fun h => absurd h (login_some_code_not_no_code opts rem c bu env db),
               fun h => nomatch h⟩
      · exact fun h => nomatch h
      · exact fun s _ => login_some_code_first_step opts rem c bu env db

/-- Witness for C4 at a concrete null-code login. -/
theorem login_missing_code_iff_null_witness :
    login optsSample false ⟨none, some "browser-1"⟩ envSample emptyDb =
      ⟨.fail (.vatsimConnectError (some .ERR_NO_CODE)), emptyDb, []⟩ :=
  (login_missing_code_iff_null optsSample false ⟨none, some "browser-1"⟩
    envSample emptyDb).2.1 rfl

/-- A login whose request carries no browser identifier can never succeed
and never changes the session table: every path either fails before the
session step or throws the generic exception there before any destroy or
create. -/
theorem login_no_browser_token_no_session (opts : ConnectOptions) (rem : Bool)
    (req : LoginRequest) (env : LoginEnv) (db : Database)
    (hb : req.browserUUID = none) :
    (∀ cid, (login opts rem req env db).result ≠ .success cid) ∧
    (login opts rem req env db).db.userSessions = db.userSessions := by
  obtain ⟨code?, bu⟩ := req
  dsimp only at hb
  subst hb
  unfold login
  dsimp only
  cases code? with
  | none => exact ⟨fun cid h => (nomatch h), rfl⟩
  | some c =>
      dsimp only
      cases hq : _queryAccessTokens env.exchange with
      | error e => exact ⟨fun cid h => (nomatch h), rfl⟩
      | ok toks =>
          dsimp only
          cases hu : _queryUserData toks.m_accessToken env.profile with
          | none => exact ⟨fun cid h => (nomatch h), rfl⟩
          | some ud =>
              dsimp only
              cases hv : _validateSuppliedScopes toks.m_suppliedScopes opts.client_scopes with
              | error e => exact ⟨fun cid h => (nomatch h), rfl⟩
              | ok u =>
                  cases u
                  dsimp only
                  cases hsus : _checkIsUserSuspended (some ud) env.banned with
                  | error e => exact ⟨fun cid h => (nomatch h), rfl⟩
                  | ok u2 =>
                      cases u2
                      dsimp only
                      cases hupd : _updateDatabase (some ud) toks.m_accessToken
                          toks.m_refreshToken env.tx db [] with
                      | error e => exact ⟨fun cid h => (nomatch h), rfl⟩
                      | ok val =>
                          obtain ⟨db2, lg2⟩ := val
                          dsimp only
                          simp only [_handleSessionChange]
                          refine ⟨fun cid h => (nomatch h), ?_⟩
                          dsimp only
                          rw [userSettingsFindOrCreate_sessions]
                          exact updateDatabase_ok_preserves_sessions ud toks.m_accessToken
                            toks.m_refreshToken env.tx db db2 [] lg2 hupd

/-- C3: at the session step an absent browser identifier throws the generic
authentication exception with the store untouched — at login level such a
request can never succeed and never changes the session table; with a
browser identifier present, every session row of the (user, browser) pair is
destroyed first, then exactly one fresh row is appended, so a successful
login leaves exactly one live session for that pair. -/
theorem handleSessionChange_single_live_session
    (ud : VatsimUserData) (rem remL : Bool) (oc : SessionCreateOutcome) (db dbL : Database)
    (buid tok : String) (opts : ConnectOptions) (req : LoginRequest) (env : LoginEnv) :
    (_handleSessionChange none (some ud) rem oc db =
      (.error (.vatsimConnectError none), db)) ∧
    (_handleSessionChange (some buid) (some ud) rem (.created tok) db =
      (.ok (some tok),
        { db with userSessions :=
            db.userSessions.filter (fun s => !(sessionMatches ud.data.cid buid s)) ++
              [⟨ud.data.cid, buid, tok, rem⟩] })) ∧
    ((_handleSessionChange (some buid) (some ud) rem (.created tok) db).2.userSessions.countP
        (sessionMatches ud.data.cid buid) = 1) ∧
    (req.browserUUID = none →
      (∀ cid, (login opts remL req env dbL).result ≠ .success cid) ∧
      (login opts remL req env dbL).db.userSessions = dbL.userSessions) := by
  refine ⟨rfl, rfl, ?_, login_no_browser_token_no_session opts remL req env dbL⟩
  simp only [_handleSessionChange, createSessionToken]
  rw [List.countP_append, countP_not_in_filtered]
  simp [List.countP_cons, sessionMatches]

/-- Witness for C3 at a concrete request without a browser identifier. -/
theorem handleSessionChange_single_live_session_witness :
    (∀ cid, (login optsSample false ⟨some "abc123", none⟩ envSample emptyDb).result ≠
      .success cid) ∧
    (login optsSample false ⟨some "abc123", none⟩ envSample emptyDb).db.userSessions =
      emptyDb.userSessions :=
  (handleSessionChange_single_live_session sampleUd false false .failed emptyDb emptyDb
    "browser-1" "tok-1" optsSample ⟨some "abc123", none⟩ envSample).2.2.2 rfl

/-- C8: the recorded steps of every login attempt form an initial segment of
the source order — code exchange, profile fetch, scope validation,
suspension check, reconciliation, session creation — so a failure at any
step prevents all later steps; and whenever the provider's granted scopes
make validation fail, neither the suspension check nor the reconciliation is
ever executed. -/
theorem login_steps_sequential_and_scope_gate (opts : ConnectOptions) (rem : Bool)
    (req : LoginRequest) (env : LoginEnv) (db : Database) :
    (∃ t, (login opts rem req env db).steps ++ t = loginStepOrder) ∧
    (∀ otok, env.exchange = .resolved (some otok) →
      ∀ err, _validateSuppliedScopes otok.scopes opts.client_scopes = .error err →
        LoginStep.suspensionCheck ∉ (login opts rem req env db).steps ∧
        LoginStep.reconciliation ∉ (login opts rem req env db).steps) := by
  constructor
  · obtain ⟨code?, bu⟩ := req
    unfold login
    dsimp only
    cases code? with
    | none => exact ⟨loginStepOrder, rfl⟩
    | some c =>
        dsimp only
        cases hq : _queryAccessTokens env.exchange with
        | error e =>
            exact ⟨[.profileFetch, .scopeValidation, .suspensionCheck, .reconciliation,
              .sessionCreation], rfl⟩
        | ok toks =>
            dsimp only
            cases hu : _queryUserData toks.m_accessToken env.profile with
            | none =>
                exact ⟨[.scopeValidation, .suspensionCheck, .reconciliation,
                  .sessionCreation], rfl⟩
            | some ud =>
                dsimp only
                cases hv : _validateSuppliedScopes toks.m_suppliedScopes opts.client_scopes with
                | error e =>
                    exact ⟨[.suspensionCheck, .reconciliation, .sessionCreation], rfl⟩
                | ok u =>
                    cases u
                    dsimp only
                    cases hsus : _checkIsUserSuspended (some ud) env.banned with
                    | error e => exact ⟨[.reconciliation, .sessionCreation], rfl⟩
                    | ok u2 =>
                        cases u2
                        dsimp only
                        cases hupd : _updateDatabase (some ud) toks.m_accessToken
                            toks.m_refreshToken env.tx db [] with
                        | error e => exact ⟨[.sessionCreation], rfl⟩
                        | ok val =>
                            obtain ⟨db2, lg2⟩ := val
                            dsimp only
                            cases hs : _handleSessionChange bu (some ud) rem env.sessionCreate
                                (userSettingsFindOrCreate ud.data.cid db2) with
                            | mk r db4 =>
                                cases r with
                                | error e => exact ⟨[], rfl⟩
                                | ok o => cases o <;> exact ⟨[], rfl⟩
  · intro otok hx err hv
    obtain ⟨code?, bu⟩ := req
    obtain ⟨exc, pro, ban, tx, sc⟩ := env
    dsimp only at hx
    subst hx
    unfold login
    dsimp only
    cases code? with
    | none => exact ⟨by simp, by simp⟩
    | some c =>
        try dsimp only
        simp only [_queryAccessTokens]
        try dsimp only
        cases hu : _queryUserData otok.access_token pro with
        | none =>
            try dsimp only
            exact ⟨by decide, by decide⟩
        | some ud =>
            try dsimp only
            rw [hv]
            try dsimp only
            exact ⟨by decide, by decide⟩

/-- A concrete environment whose provider grants fewer scopes than the
deployment requires. -/
def envScopeShort : LoginEnv :=
  { exchange := .resolved (some ⟨some "acc-tok", some "ref-tok", some ["email"]⟩)
    profile := .resolved (some sampleUd)
    banned := false
    tx := .commitOk
    sessionCreate := .created "sess-tok" }

/-- Witness for C8 at a concrete login whose granted scopes lack two of the
required ones. -/
theorem login_steps_sequential_and_scope_gate_witness :
    LoginStep.suspensionCheck ∉
      (login optsSample false ⟨some "abc123", some "browser-1"⟩ envScopeShort emptyDb).steps ∧
    LoginStep.reconciliation ∉
      (login optsSample false ⟨some "abc123", some "browser-1"⟩ envScopeShort emptyDb).steps :=
  (login_steps_sequential_and_scope_gate optsSample false ⟨some "abc123", some "browser-1"⟩
      envScopeShort emptyDb).2
    ⟨some "acc-tok", some "ref-tok", some ["email"]⟩ rfl
    (.vatsimConnectError (some .ERR_INV_SCOPES)) rfl

/-- C10: when the session step's destroy has run but `createSessionToken`
yields no session, login fails with the unable-to-create-session error and
the destroyed row is not restored — destroy and create are not wrapped in a
transaction, so such a login ends with zero live sessions for a pair that
may well have had one. -/
theorem login_failed_session_create_destroys_without_restore
    (opts : ConnectOptions) (rem : Bool) (c buid : String) (otok : VatsimOauthToken)
    (acc : String) (ud : VatsimUserData) (env : LoginEnv) (db : Database)
    (hex : env.exchange = .resolved (some otok))
    (hacc : otok.access_token = some acc)
    (hpro : env.profile = .resolved (some ud))
    (hsc : _validateSuppliedScopes otok.scopes opts.client_scopes = .ok ())
    (hban : env.banned = false)
    (hrat : ud.data.vatsim.rating.id ≠ 0)
    (hses : env.sessionCreate = .failed) :
    (login opts rem ⟨some c, some buid⟩ env db).result =
      .fail (.vatsimConnectError (some .ERR_UNABLE_CREATE_SESSION)) ∧
    (login opts rem ⟨some c, some buid⟩ env db).db.userSessions =
      db.userSessions.filter (fun s => !(sessionMatches ud.data.cid buid s)) ∧
    (login opts rem ⟨some c, some buid⟩ env db).db.userSessions.countP
      (sessionMatches ud.data.cid buid) = 0 := by
  obtain ⟨exc, pro, ban, tx, sc⟩ := env
  dsimp only at hex hpro hban hses
  subst hex
  subst hpro
  subst hban
  subst hses
  refine ⟨?_, ?_, ?_⟩
  all_goals
    unfold login
    try dsimp only
    simp only [_queryAccessTokens]
    try dsimp only
    rw [hacc]
    simp only [_queryUserData]
    try dsimp only
    rw [hsc]
    try dsimp only
    simp only [_checkIsUserSuspended]
    rw [if_neg (by simp [hrat])]
    try dsimp only
    cases tx <;>
      simp [_updateDatabase, _validateUserData, _handleSessionChange, createSessionToken,
            userSettingsFindOrCreate_sessions, countP_not_in_filtered]

/-- A concrete token payload granting every required scope. -/
def otokSample : VatsimOauthToken :=
  ⟨some "acc-tok", some "ref-tok", some ["full_name", "vatsim_details", "email"]⟩

/-- A concrete environment that succeeds everywhere except at session-token
creation. -/
def envSessionFail : LoginEnv :=
  { exchange := .resolved (some otokSample)
    profile := .resolved (some sampleUd)
    banned := false
    tx := .commitOk
    sessionCreate := .failed }

/-- A store already holding one live session for the logging-in pair. -/
def dbWithSession : Database :=
  { users := []
    userData := []
    userSessions := [⟨1000001, "browser-1", "old-tok", false⟩]
    userSettings := [] }

/-- Witness for C10 at a concrete login that destroys the pair's existing
session and then fails to create a new one. -/
theorem login_failed_session_create_destroys_without_restore_witness :
    (login optsSample false ⟨some "abc123", some "browser-1"⟩ envSessionFail
        dbWithSession).result =
      .fail (.vatsimConnectError (some .ERR_UNABLE_CREATE_SESSION)) ∧
    (login optsSample false ⟨some "abc123", some "browser-1"⟩ envSessionFail
        dbWithSession).db.userSessions =
      dbWithSession.userSessions.filter
        (fun s => !(sessionMatches sampleUd.data.cid "browser-1" s)) ∧
    (login optsSample false ⟨some "abc123", some "browser-1"⟩ envSessionFail
        dbWithSession).db.userSessions.countP
      (sessionMatches sampleUd.data.cid "browser-1") = 0 :=
  login_failed_session_create_destroys_without_restore optsSample false "abc123" "browser-1"
    otokSample "acc-tok" sampleUd envSessionFail dbWithSession rfl rfl rfl rfl rfl
    (by decide) rfl
